import Mathlib

/-!
Verification development for the Forge language runtime (the `Rforge`
repository): a shallow embedding in Lean 4 of the tree-walking evaluator
(`src/eval.rs`), the environment (`src/env.rs`), the value model
(`src/value.rs`) and the builtin registry (`src/builtins.rs`), together
with theorems settling the specification claims about them.

Modelling conventions, fixed once here:

* Rust `f64` is modelled by `Forge.FNum`: an exact rational for every finite
  value, plus a `nan` marker.  All numbers the claims exercise are small
  integers, where IEEE-754 arithmetic is exact, so rational arithmetic
  coincides with the source; IEEE infinities (reachable only through
  overflow or the literal strings "inf"/"nan", none of which any claim
  exercises) are not represented.
* `Rc<RefCell<Vec<Value>>>` (arrays) and `Rc<RefCell<HashMap<String,Value>>>`
  (class/instance field maps) are modelled as addresses into a store
  (`Forge.Store`) threaded through evaluation: allocation appends a cell,
  `Rc::ptr_eq` is address equality.
* `HashMap<String, _>` is modelled as an association list consulted
  front-to-back; `insert` prepends, which is observationally the same as
  the map's replace-on-insert for every lookup.
* `async` in the source only marks suspension points of the single
  cooperative task; evaluation order is the ordinary call order, so the
  embedding is direct (no concurrency is involved).
* The interpreter's recursion is made total with a fuel parameter
  (`Forge.evalAt`); fuel is consumed once per syntactic nesting level
  (one level per statement inside a block, per sub-expression, and per
  user-function/method/constructor body entered).  Running out of fuel is
  the distinguished outcome `Res.nofuel`, which no language construct can
  observe (in particular try/catch does not catch it).
* A Rust panic (an `unwrap` failure) is the distinguished outcome
  `Res.crash`; it aborts evaluation entirely, like the process abort it
  models.
* Builtins that perform real I/O or FFI (file system, stdin, sleep timers,
  DLL loading, the process-wide heap) are out of the modelled fragment --
  the specification itself places individual builtin implementations out
  of scope -- and are mapped to an error result tagged "builtin not
  modelled"; the pure data builtins (array, push, pop, length, slice, get,
  set, tonumber, type, mem_read, mem_write, get_reg, set_reg) are modelled
  faithfully.
* Rust error strings quote interpolated names with U+0027; the model keeps
  those quote marks, written with the \x27 escape.
-/

namespace Forge

/-! ## The number model (Rust `f64`) -/

/-- Model of a Rust `f64`: an exact rational for finite values, plus NaN.
Finite values that the claims exercise are integers below `2 ^ 53`, where
IEEE-754 double arithmetic is exact. -/
inductive FNum where
  | rat (q : ℚ)
  | nan
deriving DecidableEq

/-- Truncation toward zero, the rounding used by Rust `as`-casts and by the
`%` operator on floats. -/
def ratTrunc (q : ℚ) : ℤ :=
  if 0 ≤ q then q.floor else q.ceil

/-- IEEE addition on the modelled fragment: NaN is absorbing. -/
def FNum.addN : FNum → FNum → FNum
  | .rat a, .rat b => .rat (a + b)
  | _, _ => .nan

/-- IEEE subtraction on the modelled fragment. -/
def FNum.subN : FNum → FNum → FNum
  | .rat a, .rat b => .rat (a - b)
  | _, _ => .nan

/-- IEEE multiplication on the modelled fragment. -/
def FNum.mulN : FNum → FNum → FNum
  | .rat a, .rat b => .rat (a * b)
  | _, _ => .nan

/-- IEEE division on the modelled fragment.  The evaluator's `div` only
calls this after its explicit zero test, so the `b = 0` case is
unreachable from the embedded code. -/
def FNum.divN : FNum → FNum → FNum
  | .rat a, .rat b => .rat (a / b)
  | _, _ => .nan

/-- Rust `%` on `f64`: the remainder of truncated division; a zero right
operand yields NaN (IEEE-754 `rem` with divisor 0), as does any NaN
operand. -/
def FNum.modN : FNum → FNum → FNum
  | .rat a, .rat b => if b = 0 then .nan else .rat (a - b * (ratTrunc (a / b) : ℚ))
  | _, _ => .nan

/-- IEEE `==` on `f64`: NaN compares unequal to everything, itself
included. -/
def FNum.eqF : FNum → FNum → Bool
  | .rat a, .rat b => a == b
  | _, _ => false

/-- IEEE `<`: any comparison involving NaN is false. -/
def FNum.ltF : FNum → FNum → Bool
  | .rat a, .rat b => decide (a < b)
  | _, _ => false

/-- IEEE `<=`: any comparison involving NaN is false. -/
def FNum.leF : FNum → FNum → Bool
  | .rat a, .rat b => decide (a ≤ b)
  | _, _ => false

/-- IEEE `>`: any comparison involving NaN is false. -/
def FNum.gtF : FNum → FNum → Bool
  | .rat a, .rat b => decide (b < a)
  | _, _ => false

/-- IEEE `>=`: any comparison involving NaN is false. -/
def FNum.geF : FNum → FNum → Bool
  | .rat a, .rat b => decide (b ≤ a)
  | _, _ => false

/-- Rust `n as usize` on an `f64`: truncate toward zero, saturate at 0 and
at `usize::MAX`; NaN casts to 0. -/
def FNum.toUsize : FNum → ℕ
  | .nan => 0
  | .rat q => if q ≤ 0 then 0 else min (ratTrunc q).toNat (2 ^ 64 - 1)

/-- Rust `n as i64` on an `f64`: truncate toward zero, saturate at the
`i64` bounds; NaN casts to 0. -/
def FNum.toI64 : FNum → ℤ
  | .nan => 0
  | .rat q => max (-(2 ^ 63)) (min (ratTrunc q) (2 ^ 63 - 1))

/-- Rust `n as u8` on an `f64`: truncate toward zero, saturate into
`0..=255`; NaN casts to 0. -/
def FNum.toU8 : FNum → ℕ
  | .nan => 0
  | .rat q => if q ≤ 0 then 0 else min (ratTrunc q).toNat 255

/-- Truthiness of a number: Rust `*n != 0.0`.  NaN is truthy (it is `!=`
to zero). -/
def FNum.isTruthy : FNum → Bool
  | .rat q => decide (q ≠ 0)
  | .nan => true

/-- IEEE negation. -/
def FNum.negN : FNum → FNum
  | .rat q => .rat (-q)
  | .nan => .nan

/-! ## The abstract syntax tree (`src/ast.rs`) -/

/-- `BinaryOpKind` from `ast.rs`. -/
inductive BinaryOpKind where
  | add | sub | mul | div | mod
  | eq | ne | lt | le | gt | ge
  | and | or
deriving DecidableEq

/-- `UnaryOpKind` from `ast.rs`. -/
inductive UnaryOpKind where
  | not | neg
deriving DecidableEq

/-- `Expr` from `ast.rs`.  `Expr::Variable` is rendered `var` (`variable`
is reserved in Lean). -/
inductive Expr where
  | number (n : FNum)
  | string (s : String)
  | boolean (b : Bool)
  | null
  | var (name : String)
  | binaryOp (left : Expr) (op : BinaryOpKind) (right : Expr)
  | unaryOp (op : UnaryOpKind) (expr : Expr)
  | call (name : String) (args : List Expr)
  | index (array : Expr) (idx : Expr)
  | getAttr (object : Expr) (attr : String)
  | setAttr (object : Expr) (attr : String) (value : Expr)
  | callMethod (object : Expr) (method : String) (args : List Expr)
  | super (args : List Expr)

/-- `LoadTarget` from `ast.rs`. -/
inductive LoadTarget where
  | all
  | file (name : String)
deriving DecidableEq

mutual

/-- `Stmt` from `ast.rs`.  `Stmt::If`, `Stmt::While`, `Stmt::For` and
`Stmt::Return` are rendered `ifS`, `whileS`, `forS`, `returnS` (keyword
clashes); the `For` field `end` is rendered `stop`. -/
inductive Stmt where
  | expr (e : Expr)
  | assign (name : String) (value : Expr)
  | ifS (condition : Expr) (thenBranch : List Stmt)
      (elifBranches : List (Expr × List Stmt)) (elseBranch : Option (List Stmt))
  | whileS (condition : Expr) (body : List Stmt)
  | forS (var : String) (start : Expr) (stop : Expr) (body : List Stmt)
  | forIn (var : String) (array : Expr) (body : List Stmt)
  | returnS (e : Expr)
  | functionDef (name : String) (params : List String) (body : List Stmt) (isAsync : Bool)
  | print (exprs : List Expr)
  | loadFrom (folder : String) (target : LoadTarget)
  | tryCatch (tryBody : List Stmt) (catchBody : List Stmt)
  | classDef (name : String) (parent : Option String)
      (fields : List (String × Expr)) (methods : List UserFunction)
  | importDll (path : String) (name : String) (aliasName : String)

/-- `UserFunction` from `env.rs`: a function descriptor (name, parameter
names, body, async flag). -/
inductive UserFunction where
  | mk (name : String) (params : List String) (body : List Stmt) (isAsync : Bool)

end

/-- Parameter list of a function descriptor. -/
def UserFunction.params : UserFunction → List String
  | .mk _ ps _ _ => ps

/-- Body of a function descriptor. -/
def UserFunction.body : UserFunction → List Stmt
  | .mk _ _ b _ => b

/-- Name of a function descriptor. -/
def UserFunction.fname : UserFunction → String
  | .mk n _ _ _ => n

/-! ## The value model (`src/value.rs`) -/

/-- `Value` from `value.rs`.  `Value::Class` and `Value::Instance` are
rendered `cls` and `inst` (keyword clashes).  An `Rc<RefCell<Vec<Value>>>`
is an address into `Store.arrays`; the `Rc<RefCell<HashMap<..>>>` field
maps of classes and instances are addresses into `Store.fieldMaps`.
`Value::Dll` carries an opaque handle identity; nothing in the modelled
fragment constructs one. -/
inductive Value where
  | number (n : FNum)
  | string (s : String)
  | boolean (b : Bool)
  | array (addr : ℕ)
  | null
  | cls (name : String) (parent : Option Value) (fields : ℕ)
      (methods : List (String × UserFunction))
  | inst (class_ : Value) (fields : ℕ)
  | method (f : UserFunction) (receiver : Value)
  | dll (handle : ℕ)

/-- `Value::type_name`. -/
def Value.type_name : Value → String
  | .number _ => "number"
  | .string _ => "string"
  | .boolean _ => "boolean"
  | .array _ => "array"
  | .null => "null"
  | .cls _ _ _ _ => "class"
  | .inst _ _ => "instance"
  | .method _ _ => "method"
  | .dll _ => "dll"

/-! ## The store: the cells behind `Rc<RefCell<..>>` -/

/-- Front-to-back lookup in an association list (the model of
`HashMap::get`). -/
def lookupA {α : Type} : List (String × α) → String → Option α
  | [], _ => none
  | (k, v) :: rest, key => if key = k then some v else lookupA rest key

/-- Insertion into an association list (the model of `HashMap::insert`):
prepending shadows any earlier binding, which every lookup observes
exactly as replace-on-insert. -/
def insertA {α : Type} (key : String) (v : α) (l : List (String × α)) :
    List (String × α) :=
  (key, v) :: l

/-- The mutable cells shared by reference: `arrays` holds the contents of
every `Rc<RefCell<Vec<Value>>>` ever allocated, `fieldMaps` the contents
of every class/instance field map.  Addresses are allocation order. -/
structure Store where
  arrays : List (List Value)
  fieldMaps : List (List (String × Value))

/-- The empty store: the state before evaluation begins. -/
def Store.empty : Store := ⟨[], []⟩

/-- Read an array cell.  Every address the evaluator produces is a live
allocation, so the default is unreachable from embedded code. -/
def Store.arrAt (st : Store) (a : ℕ) : List Value :=
  (st.arrays.get? a).getD []

/-- Overwrite an array cell (`RefCell::borrow_mut`). -/
def Store.setArr (st : Store) (a : ℕ) (l : List Value) : Store :=
  { st with arrays := st.arrays.set a l }

/-- Allocate a fresh array cell (`Rc::new(RefCell::new(v))`), returning
its address. -/
def Store.allocArr (st : Store) (l : List Value) : ℕ × Store :=
  (st.arrays.length, { st with arrays := st.arrays ++ [l] })

/-- Read a field-map cell. -/
def Store.mapAt (st : Store) (a : ℕ) : List (String × Value) :=
  (st.fieldMaps.get? a).getD []

/-- Overwrite a field-map cell. -/
def Store.setMap (st : Store) (a : ℕ) (m : List (String × Value)) : Store :=
  { st with fieldMaps := st.fieldMaps.set a m }

/-- Allocate a fresh field-map cell, returning its address. -/
def Store.allocMap (st : Store) (m : List (String × Value)) : ℕ × Store :=
  (st.fieldMaps.length, { st with fieldMaps := st.fieldMaps ++ [m] })

/-! ## The environment (`src/env.rs`) -/

/-- `Env` from `env.rs`.  The `parent` field of `Env::child` is
`Some(Rc::new(RefCell::new(self.clone())))`: a fresh cell around a clone
of the caller, aliased with nothing, and nothing in the interpreter ever
writes through a parent link -- so the chain is faithfully a pure value.
The builtin table maps names to host closures; the closures are dispatched
by name through `callBuiltin`, so the model keeps only the name set.  The
`dll_cache` field (a table of opaque loaded-library handles, touched only
by the unmodelled FFI statements) is omitted. -/
inductive Env where
  | mk (vars : List (String × Value))
      (funcs : List (String × UserFunction))
      (builtins : List String)
      (classes : List (String × Value))
      (memory : List ℕ)
      (registers : List (String × ℤ))
      (parent : Option Env)

/-- The builtin names registered by `builtins::install`, in order. -/
def installedBuiltins : List String :=
  ["sleep", "array", "push", "pop", "exit", "length", "slice", "input",
   "write", "append", "read", "upper", "lower", "split", "join", "replace",
   "contains", "get", "set", "file_exists", "mem_read", "mem_write",
   "get_reg", "set_reg", "tonumber", "type", "dll_load", "dll_call",
   "dll_free", "malloc", "free", "poke", "peek", "peek32",
   "register_window_class"]

/-- `Env::new` followed by `builtins::install`, as `main.rs` builds the
root environment: empty tables, a zeroed 65536-byte memory, no parent. -/
def Env.new : Env :=
  .mk [] [] installedBuiltins [] (List.replicate 65536 0) [] none

/-- `Env::child`: empty variable map, cloned snapshots of the
function/builtin/class tables, cloned byte-memory and registers, and a
parent link to a snapshot of the caller (see the comment on `Env`). -/
def Env.child : Env → Env
  | e@(.mk _ fs bs cs mem regs _) => .mk [] fs bs cs mem regs (some e)

/-- `Env::get_var`: own variable map first, then the parent chain. -/
def Env.get_var : Env → String → Option Value
  | .mk vs _ _ _ _ _ parent, name =>
    match lookupA vs name with
    | some v => some v
    | none =>
      match parent with
      | some p => p.get_var name
      | none => none

/-- `Env::set_var`: assignment always lands in the innermost scope. -/
def Env.set_var : Env → String → Value → Env
  | .mk vs fs bs cs mem regs parent, name, v =>
    .mk (insertA name v vs) fs bs cs mem regs parent

/-- `Env::define_func`. -/
def Env.define_func : Env → String → UserFunction → Env
  | .mk vs fs bs cs mem regs parent, name, f =>
    .mk vs (insertA name f fs) bs cs mem regs parent

/-- `Env::get_func`: own table first, then the parent chain. -/
def Env.get_func : Env → String → Option UserFunction
  | .mk _ fs _ _ _ _ parent, name =>
    match lookupA fs name with
    | some f => some f
    | none =>
      match parent with
      | some p => p.get_func name
      | none => none

/-- `Env::get_builtin`, as a membership test: the closure it returns is
dispatched by name through `callBuiltin`. -/
def Env.get_builtin : Env → String → Bool
  | .mk _ _ bs _ _ _ parent, name =>
    if bs.contains name then true
    else
      match parent with
      | some p => p.get_builtin name
      | none => false

/-- `Env::define_class`. -/
def Env.define_class : Env → String → Value → Env
  | .mk vs fs bs cs mem regs parent, name, c =>
    .mk vs fs bs (insertA name c cs) mem regs parent

/-- `Env::get_class`: own table first, then the parent chain. -/
def Env.get_class : Env → String → Option Value
  | .mk _ _ _ cs _ _ parent, name =>
    match lookupA cs name with
    | some c => some c
    | none =>
      match parent with
      | some p => p.get_class name
      | none => none

/-- `Env::mem_read`. -/
def Env.mem_read : Env → ℕ → Except String ℕ
  | .mk _ _ _ _ mem _ _, addr =>
    match mem.get? addr with
    | some b => .ok b
    | none => .error "Memory access out of bounds"

/-- `Env::mem_write`. -/
def Env.mem_write : Env → ℕ → ℕ → Except String Env
  | .mk vs fs bs cs mem regs parent, addr, value =>
    if addr < mem.length then
      .ok (.mk vs fs bs cs (mem.set addr value) regs parent)
    else
      .error "Memory access out of bounds"

/-- `Env::get_reg`. -/
def Env.get_reg : Env → String → Option ℤ
  | .mk _ _ _ _ _ regs _, name => lookupA regs name

/-- `Env::set_reg`. -/
def Env.set_reg : Env → String → ℤ → Env
  | .mk vs fs bs cs mem regs parent, name, v =>
    .mk vs fs bs cs mem (insertA name v regs) parent

/-! ## Truthiness and equality (`src/value.rs`) -/

/-- `Value::as_bool`.  Arrays are truthy when the referenced cell is
nonempty, so the store is consulted. -/
def Value.as_bool (v : Value) (st : Store) : Bool :=
  match v with
  | .boolean b => b
  | .number n => n.isTruthy
  | .string s => !s.isEmpty
  | .array a => !(st.arrAt a).isEmpty
  | .null => false
  | .cls _ _ _ _ => true
  | .inst _ _ => true
  | .method _ _ => true
  | .dll _ => true

/-- Stand-in for `Rc::ptr_eq` on method descriptors, comparing the flat
fields of the descriptor.  Descriptors originate from class method tables
keyed by name, and the receivers are compared alongside, so this
approximation of pointer identity only diverges on programs that shadow a
class name with a same-named class whose same-named method differs only in
its body -- no modelled theorem compares method values at all. -/
def UserFunction.beq : UserFunction → UserFunction → Bool
  | .mk n ps _ ia, .mk n2 ps2 _ ia2 => n == n2 && ps == ps2 && ia == ia2

/-- `PartialEq for Value`.  Numbers, strings and booleans compare by value
(with IEEE NaN semantics), arrays by `Rc::ptr_eq` (address equality),
classes by name, `Null` to `Null`.  Instances compare by both `Rc::ptr_eq`
tests; every constructed instance owns a fresh field cell and a fresh
class `Rc`, so field-cell equality decides both.  Methods compare by
`Rc::ptr_eq` on descriptor and receiver, approximated structurally (see
`UserFunction.beq`). -/
def Value.peq : Value → Value → Bool
  | .number a, .number b => a.eqF b
  | .string a, .string b => a == b
  | .boolean a, .boolean b => a == b
  | .array a, .array b => a == b
  | .null, .null => true
  | .cls n _ _ _, .cls n2 _ _ _ => n == n2
  | .inst _ f1, .inst _ f2 => f1 == f2
  | .method f o, .method f2 o2 => f.beq f2 && o.peq o2
  | .dll h, .dll h2 => h == h2
  | _, _ => false

/-! ## Display (`impl fmt::Display for Value`) -/

/-- Decimal digit characters of a natural number, most significant
first. -/
def natDigits (n : ℕ) : List Char :=
  (Nat.digits 10 n).reverse.map (fun d => Char.ofNat (d + 48))

/-- Decimal rendering of a natural number. -/
def natDisplay (n : ℕ) : String :=
  if n = 0 then "0" else ⟨natDigits n⟩

/-- Decimal rendering of an integer. -/
def intDisplay (n : ℤ) : String :=
  if n < 0 then "-" ++ natDisplay n.natAbs else natDisplay n.natAbs

/-- Rust `{}` on an `f64`.  For the integer-valued numbers the claims
exercise Rust prints the plain decimal integer, modelled exactly; NaN
prints "NaN".  For non-integer rationals Rust prints a decimal expansion;
no claim and no embedded theorem exercises that case, and the model falls
back to the rational's own rendering. -/
def displayFNum : FNum → String
  | .nan => "NaN"
  | .rat q => if q.den = 1 then intDisplay q.num else toString q

/-- One layer of `Display for Value`, with the recursion on array elements
abstracted: mirrors the `match` in `value.rs`. -/
def dispStep (st : Store) (rec : Value → String) (v : Value) : String :=
  match v with
  | .number n => displayFNum n
  | .string s => s
  | .boolean b => if b then "true" else "false"
  | .array a => "[" ++ String.intercalate ", " ((st.arrAt a).map rec) ++ "]"
  | .null => "null"
  | .cls name _ _ _ => "<class " ++ name ++ ">"
  | .inst c _ =>
    match c with
    | .cls name _ _ _ => "<instance of " ++ name ++ ">"
    | _ => "<instance>"
  | .method _ _ => "<method>"
  | .dll _ => "<dll>"

/-- Display cut off at a dereference depth: on an acyclic store the depth
can never exceed the number of array cells, so the cutoff is unreachable;
on a cyclic store the Rust `Display` recursion does not terminate at all
(it overflows the stack), and the model truncates instead. -/
def dispAt (st : Store) : ℕ → Value → String
  | 0, _ => ""
  | d + 1, v => dispStep st (dispAt st d) v

/-- `format!("{}", v)` on a Value. -/
def dispV (st : Store) (v : Value) : String :=
  dispAt st (st.arrays.length + 1) v

/-! ## Attribute access (`Value::get_attr`, `Value::set_attr`) -/

/-- `Value::get_attr`.  On an Instance: own field map, then the class's
static fields, then the class's methods, the latter wrapped as a `Method`
whose receiver slot is `Rc::clone(class)` -- the class, not the instance.
On a Class: static fields then methods, the method bound to the class
itself.  Nothing ever consults a parent class. -/
def Value.get_attr (v : Value) (st : Store) (attr : String) : Option Value :=
  match v with
  | .inst c fields =>
    match lookupA (st.mapAt fields) attr with
    | some val => some val
    | none =>
      match c with
      | .cls _ _ classFields methods =>
        match lookupA (st.mapAt classFields) attr with
        | some val => some val
        | none =>
          match lookupA methods attr with
          | some m => some (.method m c)
          | none => none
      | _ => none
  | .cls _ _ fields methods =>
    match lookupA (st.mapAt fields) attr with
    | some val => some val
    | none =>
      match lookupA methods attr with
      | some m => some (.method m v)
      | none => none
  | _ => none

/-- `Value::set_attr`: writes through the shared field cell of an Instance
or Class; an error on every other value. -/
def Value.set_attr (v : Value) (attr : String) (val : Value) (st : Store) :
    Except String Store :=
  match v with
  | .inst _ fields => .ok (st.setMap fields (insertA attr val (st.mapAt fields)))
  | .cls _ _ fields _ => .ok (st.setMap fields (insertA attr val (st.mapAt fields)))
  | _ => .error "Cannot set attribute on this value"

/-! ## The binary operators (`add`, `sub`, `mul`, `div`, `modulo`, `cmp`
from `src/eval.rs`) -/

/-- `add` from `eval.rs`.  Number addition; string concatenation when
either side is a string, using the other side's display form; array
concatenation allocates a fresh cell holding a clone of the left extended
by a clone of the right. -/
def add (a b : Value) (st : Store) : Except String (Value × Store) :=
  match a, b with
  | .number x, .number y => .ok (.number (x.addN y), st)
  | .string x, .string y => .ok (.string (x ++ y), st)
  | .string x, y => .ok (.string (x ++ dispV st y), st)
  | x, .string y => .ok (.string (dispV st x ++ y), st)
  | .array x, .array y =>
    let p := st.allocArr (st.arrAt x ++ st.arrAt y)
    .ok (.array p.1, p.2)
  | _, _ => .error "Invalid operands for +"

/-- `sub` from `eval.rs`: two Numbers only. -/
def sub (a b : Value) : Except String Value :=
  match a, b with
  | .number x, .number y => .ok (.number (x.subN y))
  | _, _ => .error "Invalid operands for -"

/-- `mul` from `eval.rs`: two Numbers only. -/
def mul (a b : Value) : Except String Value :=
  match a, b with
  | .number x, .number y => .ok (.number (x.mulN y))
  | _, _ => .error "Invalid operands for *"

/-- `div` from `eval.rs`: two Numbers, with an explicit error on a zero
right operand (the test `*y == 0.0` is false for NaN, which divides
through to NaN). -/
def div (a b : Value) : Except String Value :=
  match a, b with
  | .number x, .number y =>
    if y.eqF (.rat 0) then .error "Division by zero"
    else .ok (.number (x.divN y))
  | _, _ => .error "Invalid operands for /"

/-- `modulo` from `eval.rs`: two Numbers; the raw `x % y`, with no zero
test -- a zero right operand produces NaN, not an error. -/
def modulo (a b : Value) : Except String Value :=
  match a, b with
  | .number x, .number y => .ok (.number (x.modN y))
  | _, _ => .error "Invalid operands for %"

/-- `cmp` from `eval.rs`: the comparison closure applied to two Numbers,
or to the byte lengths of two Strings. -/
def cmp (f : FNum → FNum → Bool) (a b : Value) : Except String Value :=
  match a, b with
  | .number x, .number y => .ok (.boolean (f x y))
  | .string x, .string y =>
    .ok (.boolean (f (.rat x.utf8ByteSize) (.rat y.utf8ByteSize)))
  | _, _ => .error "Comparison not supported for these types"

/-! ## Parsing a number from a string (Rust `str::parse::<f64>`, used by
the `tonumber` builtin) -/

/-- Strip one optional leading sign, reporting whether it was minus. -/
def splitSign (cs : List Char) : Bool × List Char :=
  match cs with
  | c :: rest =>
    if c = '-' then (true, rest)
    else if c = '+' then (false, rest)
    else (false, c :: rest)
  | [] => (false, [])

/-- Value of an ASCII digit character. -/
def digitVal (c : Char) : ℕ := c.toNat - 48

/-- Natural number denoted by a most-significant-first digit list. -/
def digitsToNat (cs : List Char) : ℕ :=
  cs.foldl (fun a c => a * 10 + digitVal c) 0

/-- The exponent digits of a float literal, after `e`/`E`: an optional
sign then one or more digits ending the string. -/
def parseExpDigits (q : ℚ) (cs : List Char) : Option ℚ :=
  let s := splitSign cs
  let d := s.2.span (fun c => c.isDigit)
  if d.1.isEmpty || !d.2.isEmpty then none
  else
    some (q * (10 : ℚ) ^ (if s.1 then -(digitsToNat d.1 : ℤ) else (digitsToNat d.1 : ℤ)))

/-- The optional exponent part of a float literal. -/
def parseExpTail (q : ℚ) : List Char → Option ℚ
  | [] => some q
  | 'e' :: cs => parseExpDigits q cs
  | 'E' :: cs => parseExpDigits q cs
  | _ => none

/-- Rust `str::parse::<f64>` on the finite decimal fragment: an optional
sign, a significand `digits [. digits]` or `. digits` with at least one
digit, and an optional exponent.  The rational returned is the exact value
of the literal; Rust rounds it to the nearest double, which is the
identity on the integer range the claims exercise.  The special forms
`inf`/`infinity`/`nan` (case-insensitive in Rust, yielding non-finite
doubles that `FNum` does not represent) are outside the model; no claim
exercises them. -/
def parseF64 (s : String) : Option ℚ :=
  let sg := splitSign s.data
  let ip := sg.2.span (fun c => c.isDigit)
  let core : Option (ℚ × List Char) :=
    match ip.2 with
    | '.' :: rest2 =>
      let fp := rest2.span (fun c => c.isDigit)
      if ip.1.isEmpty && fp.1.isEmpty then none
      else
        some ((digitsToNat ip.1 : ℚ) + (digitsToNat fp.1 : ℚ) / (10 : ℚ) ^ fp.1.length,
          fp.2)
    | _ => if ip.1.isEmpty then none else some ((digitsToNat ip.1 : ℚ), ip.2)
  match core with
  | none => none
  | some (q, rest) => (parseExpTail q rest).map (fun v => if sg.1 then -v else v)

/-! ## Evaluation outcomes -/

/-- The outcome of evaluating a fragment: `Ok`/`Err` from the interpreter
(carrying the current environment and store, since the Rust evaluator
mutates both in place and error propagation leaves them as mutated),
`crash` for a Rust panic, and `nofuel` for fuel exhaustion -- an artifact
of making the interpreter total that no language construct can observe. -/
inductive Res (alpha : Type) where
  | ok (val : alpha) (env : Env) (st : Store)
  | err (msg : String) (env : Env) (st : Store)
  | crash
  | nofuel

/-- Lift a pure `Result<Value, String>` (an operator result) into an
evaluation outcome at the current environment and store. -/
def liftExcept (r : Except String Value) (env : Env) (st : Store) : Res Value :=
  match r with
  | .ok v => .ok v env st
  | .error m => .err m env st

/-! ## The builtin registry (`src/builtins.rs`)

Each modelled builtin mirrors the closure of the same name in
`builtins.rs`.  Builtins whose behaviour is irreducibly external -- file
system, stdin, raw-mode key reads, process exit, DLL loading, and the
process-wide `malloc` heap -- are dispatched to a "builtin not modelled"
error by `callBuiltin`; the specification itself treats individual builtin
implementations as external collaborators, and no claim touches them. -/

/-- `sleep_fn`: suspends the task, then yields Null.  The passage of time
is not observable in the model. -/
def sleep_fn (args : List Value) (env : Env) (st : Store) : Res Value :=
  match args with
  | [v] =>
    match v with
    | .number _ => .ok .null env st
    | _ => .err "sleep argument must be number" env st
  | _ => .err "sleep expects 1 argument" env st

/-- `array_fn`: a fresh array cell holding the arguments. -/
def array_fn (args : List Value) (env : Env) (st : Store) : Res Value :=
  let p := st.allocArr args
  .ok (.array p.1) env p.2

/-- `push_fn`: appends to the shared cell and returns the new length. -/
def push_fn (args : List Value) (env : Env) (st : Store) : Res Value :=
  match args with
  | [a, v] =>
    match a with
    | .array addr =>
      let l := st.arrAt addr ++ [v]
      .ok (.number (.rat (l.length : ℚ))) env (st.setArr addr l)
    | _ => .err "push: first argument must be array" env st
  | _ => .err "push expects 2 arguments" env st

/-- `pop_fn`: removes and returns the last element. -/
def pop_fn (args : List Value) (env : Env) (st : Store) : Res Value :=
  match args with
  | [a] =>
    match a with
    | .array addr =>
      let l := st.arrAt addr
      match l.getLast? with
      | some v => .ok v env (st.setArr addr l.dropLast)
      | none => .err "pop from empty array" env st
    | _ => .err "pop: argument must be array" env st
  | _ => .err "pop expects 1 argument" env st

/-- `length_fn`: array length or string byte length. -/
def length_fn (args : List Value) (env : Env) (st : Store) : Res Value :=
  match args with
  | [v] =>
    match v with
    | .array addr => .ok (.number (.rat ((st.arrAt addr).length : ℚ))) env st
    | .string s => .ok (.number (.rat (s.utf8ByteSize : ℚ))) env st
    | _ => .err "length: argument must be array or string" env st
  | _ => .err "length expects 1 argument" env st

/-- `slice_fn`: `arr[s..e].to_vec()` into a fresh cell after the bounds
tests.  The bounds are `f64`s cast with `as usize`, so a negative bound
saturates to 0 before any test sees it. -/
def slice_fn (args : List Value) (env : Env) (st : Store) : Res Value :=
  match args with
  | [a, b, c] =>
    match a, b, c with
    | .array addr, .number sn, .number en =>
      let l := st.arrAt addr
      let s := sn.toUsize
      let e := en.toUsize
      if e < s then .err "slice: start index must be <= end index" env st
      else if l.length < e then .err "slice: end index out of bounds" env st
      else
        let p := st.allocArr ((l.drop s).take (e - s))
        .ok (.array p.1) env p.2
    | _, _, _ =>
      .err "slice: first argument must be array, start and end must be numbers" env st
  | _ => .err "slice expects 3 arguments" env st

/-- `get_fn`: checked element read. -/
def get_fn (args : List Value) (env : Env) (st : Store) : Res Value :=
  match args with
  | [a, b] =>
    match a, b with
    | .array addr, .number n =>
      match (st.arrAt addr).get? n.toUsize with
      | some v => .ok v env st
      | none => .err "get: index out of bounds" env st
    | _, _ => .err "get: first argument must be array, second must be number" env st
  | _ => .err "get expects 2 arguments" env st

/-- `set_fn`: checked element write through the shared cell. -/
def set_fn (args : List Value) (env : Env) (st : Store) : Res Value :=
  match args with
  | [a, b, v] =>
    match a, b with
    | .array addr, .number n =>
      let l := st.arrAt addr
      let idx := n.toUsize
      if idx < l.length then .ok .null env (st.setArr addr (l.set idx v))
      else .err "set: index out of bounds" env st
    | _, _ => .err "set: first argument must be array, second must be number" env st
  | _ => .err "set expects 3 arguments" env st

/-- `mem_read_fn`: byte read from the per-environment memory. -/
def mem_read_fn (args : List Value) (env : Env) (st : Store) : Res Value :=
  match args with
  | [v] =>
    match v with
    | .number n =>
      match env.mem_read n.toUsize with
      | .ok b => .ok (.number (.rat (b : ℚ))) env st
      | .error e => .err e env st
    | _ => .err "mem_read argument must be number" env st
  | _ => .err "mem_read expects 1 argument" env st

/-- `mem_write_fn`: byte write into the per-environment memory. -/
def mem_write_fn (args : List Value) (env : Env) (st : Store) : Res Value :=
  match args with
  | [a, v] =>
    match a with
    | .number n =>
      match v with
      | .number m =>
        match env.mem_write n.toUsize m.toU8 with
        | .ok env2 => .ok .null env2 st
        | .error e => .err e env st
      | _ => .err "mem_write second argument must be number" env st
    | _ => .err "mem_write first argument must be number" env st
  | _ => .err "mem_write expects 2 arguments" env st

/-- `get_reg_fn`: named-register read. -/
def get_reg_fn (args : List Value) (env : Env) (st : Store) : Res Value :=
  match args with
  | [v] =>
    match v with
    | .string s =>
      match env.get_reg s with
      | some n => .ok (.number (.rat (n : ℚ))) env st
      | none => .err ("Register \x27" ++ s ++ "\x27 not defined") env st
    | _ => .err "get_reg argument must be string" env st
  | _ => .err "get_reg expects 1 argument" env st

/-- `set_reg_fn`: named-register write. -/
def set_reg_fn (args : List Value) (env : Env) (st : Store) : Res Value :=
  match args with
  | [a, v] =>
    match a with
    | .string s =>
      match v with
      | .number n => .ok .null (env.set_reg s n.toI64) st
      | _ => .err "set_reg second argument must be number" env st
    | _ => .err "set_reg first argument must be string" env st
  | _ => .err "set_reg expects 2 arguments" env st

/-- `tonumber_fn`: strings through `parse::<f64>` with parse failures
mapped to 0, numbers unchanged, booleans to 0/1, everything else to 0. -/
def tonumber_fn (args : List Value) (env : Env) (st : Store) : Res Value :=
  match args with
  | [v] =>
    match v with
    | .string s =>
      match parseF64 s with
      | some q => .ok (.number (.rat q)) env st
      | none => .ok (.number (.rat 0)) env st
    | .number n => .ok (.number n) env st
    | .boolean b => .ok (.number (.rat (if b then 1 else 0))) env st
    | .null => .ok (.number (.rat 0)) env st
    | .array _ => .ok (.number (.rat 0)) env st
    | .cls _ _ _ _ => .ok (.number (.rat 0)) env st
    | .inst _ _ => .ok (.number (.rat 0)) env st
    | .method _ _ => .ok (.number (.rat 0)) env st
    | .dll _ => .ok (.number (.rat 0)) env st
  | _ => .err "tonumber expects 1 argument" env st

/-- `type_fn`: the type-name string. -/
def type_fn (args : List Value) (env : Env) (st : Store) : Res Value :=
  match args with
  | [v] => .ok (.string v.type_name) env st
  | _ => .err "type expects 1 argument" env st

/-- Dispatch of a builtin closure by its registered name.  The names not
listed here read stdin, touch the file system or the terminal, exit the
process, cross the FFI, or use the process-wide heap: their behaviour is
external and unmodelled, and no claim depends on it. -/
def callBuiltin (name : String) (args : List Value) (env : Env) (st : Store) :
    Res Value :=
  match name with
  | "sleep" => sleep_fn args env st
  | "array" => array_fn args env st
  | "push" => push_fn args env st
  | "pop" => pop_fn args env st
  | "length" => length_fn args env st
  | "slice" => slice_fn args env st
  | "get" => get_fn args env st
  | "set" => set_fn args env st
  | "mem_read" => mem_read_fn args env st
  | "mem_write" => mem_write_fn args env st
  | "get_reg" => get_reg_fn args env st
  | "set_reg" => set_reg_fn args env st
  | "tonumber" => tonumber_fn args env st
  | "type" => type_fn args env st
  | _ => .err ("builtin not modelled: " ++ name) env st

/-! ## The evaluator (`src/eval.rs`)

The interpreter is one level of mutual recursion repeated `fuel` times:
`EvalF` is the record of evaluation functions, `evalStep` builds level
`f + 1` from level `f`, and level 0 answers `nofuel`.  Iteration *within*
one construct (the statements of a block, the elements of a for-in
snapshot, the arguments of a call) runs at one level, exactly as the Rust
loops do; descending into a sub-statement, a sub-expression or a called
body moves one level down. -/

/-- The evaluation functions at one fuel level. -/
structure EvalF where
  block : List Stmt → Env → Store → Res (Option Value)
  stmt : Stmt → Env → Store → Res (Option Value)
  expr : Expr → Env → Store → Res Value
  exprs : List Expr → Env → Store → Res (List Value)
  fieldInits : List (String × Expr) → Env → Store → Res (List (String × Value))
  classCall : Value → List Value → Env → Store → Res Value

/-- `eval_block`: statements in order; a `Some` return value stops the
block. -/
def runBlock (stmtF : Stmt → Env → Store → Res (Option Value)) :
    List Stmt → Env → Store → Res (Option Value)
  | [], env, st => .ok none env st
  | s :: rest, env, st =>
    match stmtF s env st with
    | .ok (some v) e2 s2 => .ok (some v) e2 s2
    | .ok none e2 s2 => runBlock stmtF rest e2 s2
    | .err m e2 s2 => .err m e2 s2
    | .crash => .crash
    | .nofuel => .nofuel

/-- Left-to-right evaluation of call arguments (or printed expressions). -/
def runArgs (exprF : Expr → Env → Store → Res Value) :
    List Expr → Env → Store → Res (List Value)
  | [], env, st => .ok [] env st
  | e :: rest, env, st =>
    match exprF e env st with
    | .ok v e2 s2 =>
      match runArgs exprF rest e2 s2 with
      | .ok vs e3 s3 => .ok (v :: vs) e3 s3
      | .err m e3 s3 => .err m e3 s3
      | .crash => .crash
      | .nofuel => .nofuel
    | .err m e2 s2 => .err m e2 s2
    | .crash => .crash
    | .nofuel => .nofuel

/-- Left-to-right evaluation of the static-field initialisers of a class
body. -/
def runFieldInits (exprF : Expr → Env → Store → Res Value) :
    List (String × Expr) → Env → Store → Res (List (String × Value))
  | [], env, st => .ok [] env st
  | (n, e) :: rest, env, st =>
    match exprF e env st with
    | .ok v e2 s2 =>
      match runFieldInits exprF rest e2 s2 with
      | .ok vs e3 s3 => .ok ((n, v) :: vs) e3 s3
      | .err m e3 s3 => .err m e3 s3
      | .crash => .crash
      | .nofuel => .nofuel
    | .err m e2 s2 => .err m e2 s2
    | .crash => .crash
    | .nofuel => .nofuel

/-- The elif chain of an `if`: the first truthy condition selects its
branch, else the `else` branch (if any) runs. -/
def runIfChain (exprF : Expr → Env → Store → Res Value)
    (blockF : List Stmt → Env → Store → Res (Option Value)) :
    List (Expr × List Stmt) → Option (List Stmt) → Env → Store → Res (Option Value)
  | [], elseB, env, st =>
    match elseB with
    | some b => blockF b env st
    | none => .ok none env st
  | (c, b) :: rest, elseB, env, st =>
    match exprF c env st with
    | .ok v e2 s2 =>
      if v.as_bool s2 then blockF b e2 s2
      else runIfChain exprF blockF rest elseB e2 s2
    | .err m e2 s2 => .err m e2 s2
    | .crash => .crash
    | .nofuel => .nofuel

/-- The for-in loop over the snapshot taken at entry: the loop variable is
bound, the body runs, and the iteration continues over the remaining
snapshot elements -- whatever the body did to the array cell. -/
def runForIn (blockF : List Stmt → Env → Store → Res (Option Value))
    (v : String) : List Value → List Stmt → Env → Store → Res (Option Value)
  | [], _, env, st => .ok none env st
  | item :: rest, body, env, st =>
    match blockF body (env.set_var v item) st with
    | .ok (some rv) e2 s2 => .ok (some rv) e2 s2
    | .ok none e2 s2 => runForIn blockF v rest body e2 s2
    | .err m e2 s2 => .err m e2 s2
    | .crash => .crash
    | .nofuel => .nofuel

/-- The numeric for loop `start..=end`, running on the iteration count
(the bounds were both evaluated before the loop began). -/
def runForNum (blockF : List Stmt → Env → Store → Res (Option Value))
    (v : String) : ℤ → ℕ → List Stmt → Env → Store → Res (Option Value)
  | _, 0, _, env, st => .ok none env st
  | i, k + 1, body, env, st =>
    match blockF body (env.set_var v (.number (.rat (i : ℚ)))) st with
    | .ok (some rv) e2 s2 => .ok (some rv) e2 s2
    | .ok none e2 s2 => runForNum blockF v (i + 1) k body e2 s2
    | .err m e2 s2 => .err m e2 s2
    | .crash => .crash
    | .nofuel => .nofuel

/-- `local_env.set_var(p, v)` for each parameter/argument pair
(`zip` truncates, but every call site checks the lengths first). -/
def bindParams (ps : List String) (vs : List Value) (e : Env) : Env :=
  (ps.zip vs).foldl (fun acc pv => acc.set_var pv.1 pv.2) e

/-- `eval_stmt` at one fuel level. -/
def stmtEval (p : EvalF) (s : Stmt) (env : Env) (st : Store) : Res (Option Value) :=
  match s with
  | .expr e =>
    match p.expr e env st with
    | .ok _ e2 s2 => .ok none e2 s2
    | .err m e2 s2 => .err m e2 s2
    | .crash => .crash
    | .nofuel => .nofuel
  | .assign name value =>
    match p.expr value env st with
    | .ok v e2 s2 => .ok none (e2.set_var name v) s2
    | .err m e2 s2 => .err m e2 s2
    | .crash => .crash
    | .nofuel => .nofuel
  | .ifS cond thenB elifs elseB =>
    match p.expr cond env st with
    | .ok v e2 s2 =>
      if v.as_bool s2 then p.block thenB e2 s2
      else runIfChain p.expr p.block elifs elseB e2 s2
    | .err m e2 s2 => .err m e2 s2
    | .crash => .crash
    | .nofuel => .nofuel
  | .whileS cond body =>
    match p.expr cond env st with
    | .ok v e2 s2 =>
      if v.as_bool s2 then
        match p.block body e2 s2 with
        | .ok (some rv) e3 s3 => .ok (some rv) e3 s3
        | .ok none e3 s3 => p.stmt (.whileS cond body) e3 s3
        | .err m e3 s3 => .err m e3 s3
        | .crash => .crash
        | .nofuel => .nofuel
      else .ok none e2 s2
    | .err m e2 s2 => .err m e2 s2
    | .crash => .crash
    | .nofuel => .nofuel
  | .forS v start stop body =>
    match p.expr start env st with
    | .ok sv e2 s2 =>
      match p.expr stop e2 s2 with
      | .ok ev e3 s3 =>
        match sv with
        | .number sn =>
          match ev with
          | .number en =>
            runForNum p.block v sn.toI64 (en.toI64 + 1 - sn.toI64).toNat body e3 s3
          | _ => .err "end value must be number" e3 s3
        | _ => .err "start value must be number" e3 s3
      | .err m e3 s3 => .err m e3 s3
      | .crash => .crash
      | .nofuel => .nofuel
    | .err m e2 s2 => .err m e2 s2
    | .crash => .crash
    | .nofuel => .nofuel
  | .forIn v arrayE body =>
    match p.expr arrayE env st with
    | .ok av e2 s2 =>
      match av with
      | .array a => runForIn p.block v (s2.arrAt a) body e2 s2
      | _ => .err "for-in: right side must be array" e2 s2
    | .err m e2 s2 => .err m e2 s2
    | .crash => .crash
    | .nofuel => .nofuel
  | .returnS e =>
    match p.expr e env st with
    | .ok v e2 s2 => .ok (some v) e2 s2
    | .err m e2 s2 => .err m e2 s2
    | .crash => .crash
    | .nofuel => .nofuel
  | .functionDef name params body isAsync =>
    .ok none (env.define_func name (.mk name params body isAsync)) st
  | .print exprs =>
    match runArgs p.expr exprs env st with
    | .ok _ e2 s2 => .ok none e2 s2
    | .err m e2 s2 => .err m e2 s2
    | .crash => .crash
    | .nofuel => .nofuel
  | .loadFrom _ _ =>
    .err "statement not modelled: load-from reads the file system" env st
  | .tryCatch tb cb =>
    match p.block tb env st with
    | .ok v e2 s2 => .ok v e2 s2
    | .err _ _ s2 => p.block cb env s2
    | .crash => .crash
    | .nofuel => .nofuel
  | .classDef name parent fields methods =>
    match runFieldInits p.expr fields env st with
    | .ok fvs e2 s2 =>
      match parent with
      | some pn =>
        match e2.get_class pn with
        | some pv =>
          let fm := s2.allocMap (fvs.foldl (fun m kv => insertA kv.1 kv.2 m) [])
          let cv : Value := .cls name (some pv) fm.1
            (methods.foldl (fun m f => insertA f.fname f m) [])
          .ok none (e2.define_class name cv) fm.2
        | none => .err ("Parent class \x27" ++ pn ++ "\x27 not found") e2 s2
      | none =>
        let fm := s2.allocMap (fvs.foldl (fun m kv => insertA kv.1 kv.2 m) [])
        let cv : Value := .cls name none fm.1
          (methods.foldl (fun m f => insertA f.fname f m) [])
        .ok none (e2.define_class name cv) fm.2
    | .err m e2 s2 => .err m e2 s2
    | .crash => .crash
    | .nofuel => .nofuel
  | .importDll _ _ _ =>
    .err "statement not modelled: DLL import crosses the FFI" env st

/-- `eval_expr` at one fuel level. -/
def exprEval (p : EvalF) (e : Expr) (env : Env) (st : Store) : Res Value :=
  match e with
  | .number n => .ok (.number n) env st
  | .string s => .ok (.string s) env st
  | .boolean b => .ok (.boolean b) env st
  | .null => .ok .null env st
  | .var name =>
    match env.get_var name with
    | some v => .ok v env st
    | none => .err ("Variable \x27" ++ name ++ "\x27 not defined") env st
  | .binaryOp l op r =>
    match p.expr l env st with
    | .ok lv e1 s1 =>
      match p.expr r e1 s1 with
      | .ok rv e2 s2 =>
        match op with
        | .add =>
          match add lv rv s2 with
          | .ok vs => .ok vs.1 e2 vs.2
          | .error m => .err m e2 s2
        | .sub => liftExcept (sub lv rv) e2 s2
        | .mul => liftExcept (mul lv rv) e2 s2
        | .div => liftExcept (div lv rv) e2 s2
        | .mod => liftExcept (modulo lv rv) e2 s2
        | .eq => .ok (.boolean (lv.peq rv)) e2 s2
        | .ne => .ok (.boolean (!lv.peq rv)) e2 s2
        | .lt => liftExcept (cmp FNum.ltF lv rv) e2 s2
        | .le => liftExcept (cmp FNum.leF lv rv) e2 s2
        | .gt => liftExcept (cmp FNum.gtF lv rv) e2 s2
        | .ge => liftExcept (cmp FNum.geF lv rv) e2 s2
        | .and => .ok (.boolean (lv.as_bool s2 && rv.as_bool s2)) e2 s2
        | .or => .ok (.boolean (lv.as_bool s2 || rv.as_bool s2)) e2 s2
      | .err m e2 s2 => .err m e2 s2
      | .crash => .crash
      | .nofuel => .nofuel
    | .err m e1 s1 => .err m e1 s1
    | .crash => .crash
    | .nofuel => .nofuel
  | .unaryOp op sube =>
    match p.expr sube env st with
    | .ok v e2 s2 =>
      match op with
      | .not => .ok (.boolean (!v.as_bool s2)) e2 s2
      | .neg =>
        match v with
        | .number n => .ok (.number n.negN) e2 s2
        | _ => .err "Unary minus applied to non-number" e2 s2
    | .err m e2 s2 => .err m e2 s2
    | .crash => .crash
    | .nofuel => .nofuel
  | .call name args =>
    match runArgs p.expr args env st with
    | .ok vals e1 s1 =>
      match e1.get_class name with
      | some c => p.classCall c vals e1 s1
      | none =>
        if e1.get_builtin name then callBuiltin name vals e1 s1
        else
          match e1.get_func name with
          | some fn =>
            if vals.length ≠ fn.params.length then
              .err ("Function \x27" ++ name ++ "\x27 expects " ++
                toString fn.params.length ++ " arguments, got " ++
                toString vals.length) e1 s1
            else
              match p.block fn.body (bindParams fn.params vals e1.child) s1 with
              | .ok r _ s2 => .ok (r.getD .null) e1 s2
              | .err m _ s2 => .err m e1 s2
              | .crash => .crash
              | .nofuel => .nofuel
          | none =>
            .err ("Unknown function or class \x27" ++ name ++ "\x27") e1 s1
    | .err m e1 s1 => .err m e1 s1
    | .crash => .crash
    | .nofuel => .nofuel
  | .index arrayE idxE =>
    match p.expr arrayE env st with
    | .ok av e1 s1 =>
      match p.expr idxE e1 s1 with
      | .ok iv e2 s2 =>
        match av, iv with
        | .array a, .number n =>
          -- the checked lookup is the source's `i < arr.len()` test followed
          -- by `arr[i].clone()`
          match (s2.arrAt a).get? n.toUsize with
          | some v => .ok v e2 s2
          | none => .err "Index out of bounds" e2 s2
        | .string s, .number n =>
          -- the source tests `i` against the *byte* length but then takes
          -- `s.chars().nth(i).unwrap()`: when the string has multi-byte
          -- characters the guard can pass with no i-th character, and the
          -- unwrap panics
          let i := n.toUsize
          if i < s.utf8ByteSize then
            match s.data.get? i with
            | some c => .ok (.string (String.singleton c)) e2 s2
            | none => .crash
          else .err "String index out of bounds" e2 s2
        | _, _ => .err "Invalid index access" e2 s2
      | .err m e2 s2 => .err m e2 s2
      | .crash => .crash
      | .nofuel => .nofuel
    | .err m e1 s1 => .err m e1 s1
    | .crash => .crash
    | .nofuel => .nofuel
  | .getAttr obj attr =>
    match p.expr obj env st with
    | .ok ov e2 s2 =>
      match ov.get_attr s2 attr with
      | some v => .ok v e2 s2
      | none => .err ("Attribute \x27" ++ attr ++ "\x27 not found") e2 s2
    | .err m e2 s2 => .err m e2 s2
    | .crash => .crash
    | .nofuel => .nofuel
  | .setAttr obj attr valueE =>
    match p.expr obj env st with
    | .ok ov e1 s1 =>
      match p.expr valueE e1 s1 with
      | .ok v e2 s2 =>
        match ov.set_attr attr v s2 with
        | .ok s3 => .ok .null e2 s3
        | .error m => .err m e2 s2
      | .err m e2 s2 => .err m e2 s2
      | .crash => .crash
      | .nofuel => .nofuel
    | .err m e1 s1 => .err m e1 s1
    | .crash => .crash
    | .nofuel => .nofuel
  | .callMethod obj methodName args =>
    match p.expr obj env st with
    | .ok ov e1 s1 =>
      match runArgs p.expr args e1 s1 with
      | .ok vals e2 s2 =>
        match ov.get_attr s2 methodName with
        | some mv =>
          match mv with
          | .method fn _ =>
            let callArgs := ov :: vals
            if callArgs.length ≠ fn.params.length then
              .err ("Method \x27" ++ methodName ++ "\x27 expects " ++
                toString fn.params.length ++ " arguments, got " ++
                toString callArgs.length) e2 s2
            else
              match p.block fn.body (bindParams fn.params callArgs e2.child) s2 with
              | .ok r _ s3 => .ok (r.getD .null) e2 s3
              | .err m _ s3 => .err m e2 s3
              | .crash => .crash
              | .nofuel => .nofuel
          | _ => .err "Not a method" e2 s2
        | none => .err ("Method \x27" ++ methodName ++ "\x27 not found") e2 s2
      | .err m e2 s2 => .err m e2 s2
      | .crash => .crash
      | .nofuel => .nofuel
    | .err m e1 s1 => .err m e1 s1
    | .crash => .crash
    | .nofuel => .nofuel
  | .super _ => .err "super not implemented yet" env st

/-- `Value::call_as_class` at one fuel level: a fresh empty field cell, an
Instance of the class, and the `__init__` method (when present) run with
the instance prepended to the arguments; the constructor result is
discarded and the instance returned. -/
def classCallEval (p : EvalF) (c : Value) (args : List Value) (env : Env)
    (st : Store) : Res Value :=
  match c with
  | .cls _ _ _ methods =>
    let im := st.allocMap []
    let instV : Value := .inst c im.1
    match lookupA methods "__init__" with
    | some init =>
      let callArgs := instV :: args
      if callArgs.length ≠ init.params.length then
        .err ("Constructor __init__ expects " ++ toString init.params.length ++
          " arguments, got " ++ toString callArgs.length) env im.2
      else
        match p.block init.body (bindParams init.params callArgs env.child) im.2 with
        | .ok _ _ s2 => .ok instV env s2
        | .err m _ s2 => .err m env s2
        | .crash => .crash
        | .nofuel => .nofuel
    | none => .ok instV env im.2
  | _ => .err "Not a class" env st

/-- One fuel level of the interpreter, built from the level below. -/
def evalStep (p : EvalF) : EvalF where
  block := runBlock p.stmt
  stmt := stmtEval p
  expr := exprEval p
  exprs := runArgs p.expr
  fieldInits := runFieldInits p.expr
  classCall := classCallEval p

/-- Level 0: out of fuel everywhere. -/
def botF : EvalF where
  block := fun _ _ _ => .nofuel
  stmt := fun _ _ _ => .nofuel
  expr := fun _ _ _ => .nofuel
  exprs := fun _ _ _ => .nofuel
  fieldInits := fun _ _ _ => .nofuel
  classCall := fun _ _ _ _ => .nofuel

/-- The interpreter at a given fuel. -/
def evalAt : ℕ → EvalF
  | 0 => botF
  | f + 1 => evalStep (evalAt f)

/-- `eval_block` with fuel. -/
def evalBlock (fuel : ℕ) : List Stmt → Env → Store → Res (Option Value) :=
  (evalAt fuel).block

/-- `eval_stmt` with fuel. -/
def evalStmt (fuel : ℕ) : Stmt → Env → Store → Res (Option Value) :=
  (evalAt fuel).stmt

/-- `eval_expr` with fuel. -/
def evalExpr (fuel : ℕ) : Expr → Env → Store → Res Value :=
  (evalAt fuel).expr

/-- Argument-list evaluation with fuel. -/
def evalExprs (fuel : ℕ) : List Expr → Env → Store → Res (List Value) :=
  (evalAt fuel).exprs

/-- `Value::call_as_class` with fuel. -/
def callAsClass (fuel : ℕ) : Value → List Value → Env → Store → Res Value :=
  (evalAt fuel).classCall

/-- `run_script` after parsing: the statement list evaluated in a fresh
root environment with the builtins installed, over the empty store. -/
def runProgram (fuel : ℕ) (stmts : List Stmt) : Res (Option Value) :=
  evalBlock fuel stmts Env.new Store.empty

/-! ## Unfolding equations for the fuel-indexed interpreter -/

theorem evalAt_block (f : ℕ) : (evalAt f).block = evalBlock f := rfl

theorem evalAt_stmt (f : ℕ) : (evalAt f).stmt = evalStmt f := rfl

theorem evalAt_expr (f : ℕ) : (evalAt f).expr = evalExpr f := rfl

theorem evalAt_exprs (f : ℕ) : (evalAt f).exprs = evalExprs f := rfl

theorem evalAt_classCall (f : ℕ) : (evalAt f).classCall = callAsClass f := rfl

theorem evalBlock_succ (f : ℕ) : evalBlock (f + 1) = runBlock (evalStmt f) := rfl

theorem evalStmt_succ (f : ℕ) : evalStmt (f + 1) = stmtEval (evalAt f) := rfl

theorem evalExpr_succ (f : ℕ) : evalExpr (f + 1) = exprEval (evalAt f) := rfl

theorem evalExprs_succ (f : ℕ) : evalExprs (f + 1) = runArgs (evalExpr f) := rfl

theorem callAsClass_succ (f : ℕ) : callAsClass (f + 1) = classCallEval (evalAt f) := rfl

theorem dispAt_succ (st : Store) (d : ℕ) : dispAt st (d + 1) = dispStep st (dispAt st d) := rfl

/-! ## Environment lemmas -/

theorem Env.get_var_mk (vs : List (String × Value)) (fs : List (String × UserFunction))
    (bs : List String) (cs : List (String × Value)) (mem : List ℕ)
    (regs : List (String × ℤ)) (par : Option Env) (n : String) :
    Env.get_var (.mk vs fs bs cs mem regs par) n =
      (match lookupA vs n with
       | some v => some v
       | none =>
         match par with
         | some p => p.get_var n
         | none => none) := by
  cases par <;> simp [Env.get_var]

theorem Env.get_func_mk (vs : List (String × Value)) (fs : List (String × UserFunction))
    (bs : List String) (cs : List (String × Value)) (mem : List ℕ)
    (regs : List (String × ℤ)) (par : Option Env) (n : String) :
    Env.get_func (.mk vs fs bs cs mem regs par) n =
      (match lookupA fs n with
       | some f => some f
       | none =>
         match par with
         | some p => p.get_func n
         | none => none) := by
  cases par <;> simp [Env.get_func]

theorem Env.get_builtin_mk (vs : List (String × Value)) (fs : List (String × UserFunction))
    (bs : List String) (cs : List (String × Value)) (mem : List ℕ)
    (regs : List (String × ℤ)) (par : Option Env) (n : String) :
    Env.get_builtin (.mk vs fs bs cs mem regs par) n =
      (if bs.contains n then true
       else
         match par with
         | some p => p.get_builtin n
         | none => false) := by
  cases par <;> simp [Env.get_builtin]

theorem Env.get_class_mk (vs : List (String × Value)) (fs : List (String × UserFunction))
    (bs : List String) (cs : List (String × Value)) (mem : List ℕ)
    (regs : List (String × ℤ)) (par : Option Env) (n : String) :
    Env.get_class (.mk vs fs bs cs mem regs par) n =
      (match lookupA cs n with
       | some c => some c
       | none =>
         match par with
         | some p => p.get_class n
         | none => none) := by
  cases par <;> simp [Env.get_class]

theorem Env.get_var_set_var_self (e : Env) (k : String) (v : Value) :
    (e.set_var k v).get_var k = some v := by
  cases e
  simp [Env.set_var, Env.get_var_mk, insertA, lookupA]

theorem Env.get_var_set_var_ne (e : Env) (k k2 : String) (v : Value) (h : k2 ≠ k) :
    (e.set_var k v).get_var k2 = e.get_var k2 := by
  cases e
  simp [Env.set_var, Env.get_var_mk, insertA, lookupA, h]

theorem Env.get_class_set_var (e : Env) (k : String) (v : Value) (n : String) :
    (e.set_var k v).get_class n = e.get_class n := by
  cases e
  simp [Env.set_var, Env.get_class_mk]

theorem Env.get_builtin_set_var (e : Env) (k : String) (v : Value) (n : String) :
    (e.set_var k v).get_builtin n = e.get_builtin n := by
  cases e
  simp [Env.set_var, Env.get_builtin_mk]

theorem Env.get_func_set_var (e : Env) (k : String) (v : Value) (n : String) :
    (e.set_var k v).get_func n = e.get_func n := by
  cases e
  simp [Env.set_var, Env.get_func_mk]

theorem Env.child_get_var (e : Env) (n : String) :
    e.child.get_var n = e.get_var n := by
  cases e
  simp [Env.child, Env.get_var_mk, lookupA]

/-! ## Concrete fixtures used by the claim theorems -/

/-- The environment reached by an evaluation outcome (the Rust `&mut Env`
after the call), projected for stating end-state facts. -/
def resultVar (r : Res (Option Value)) (n : String) : Option Value :=
  match r with
  | .ok _ e _ => e.get_var n
  | .err _ e _ => e.get_var n
  | .crash => none
  | .nofuel => none

/-- The rollback scenario of the specification:
`x = 1; try: x = 2; 1 / 0; catch: pass`. -/
def rollbackProg : List Stmt :=
  [.assign "x" (.number (.rat 1)),
   .tryCatch
     [.assign "x" (.number (.rat 2)),
      .expr (.binaryOp (.number (.rat 1)) .div (.number (.rat 0)))]
     []]

/-- The body of the for-in snapshot scenario: each iteration pushes the
loop variable back onto the array being iterated and increments a
counter. -/
def snapshotLoopBody : List Stmt :=
  [.expr (.call "push" [.var "arr", .var "x"]),
   .assign "c" (.binaryOp (.var "c") .add (.number (.rat 1)))]

/-- The environment for the for-in snapshot scenario: `arr` holds the
array at cell 0 and the counter `c` starts at 0. -/
def snapshotLoopEnv : Env :=
  (Env.new.set_var "arr" (.array 0)).set_var "c" (.number (.rat 0))

/-- A one-method descriptor for the attribute-lookup scenario. -/
def mGet : UserFunction := .mk "m" ["self"] [] false

/-- A class with no parent, static-field cell 1, and the single method
`m`. -/
def pointClass : Value := .cls "C" none 1 [("m", mGet)]

/-- An instance of `pointClass` whose field cell is 0. -/
def pointInst : Value := .inst pointClass 0

/-- A store with two empty field maps: cell 0 for the instance, cell 1
for the class statics. -/
def twoMapsStore : Store := ⟨[], [[], []]⟩

end Forge


namespace Forge

/-! ## The claims -/

/-- Claim C2, counterexample.  The claim says `5 % 0` raises an
arithmetic error like division by zero; evaluating it instead succeeds
with the IEEE result NaN (`modulo` in `eval.rs` has no zero test). -/
theorem forge_C2_counterexample :
    evalExpr 2 (.binaryOp (.number (.rat 5)) .mod (.number (.rat 0)))
      Env.new Store.empty = .ok (.number .nan) Env.new Store.empty := by
  with_unfolding_all rfl

/-- Claim C2, amended: evaluating `%` on two Number operands never
produces an error -- `modulo` has no zero test, so a zero right operand
yields the IEEE result NaN (unlike `/`, which errors on zero). -/
theorem forge_C2 :
    (∀ x y : FNum, ∃ v : Value, modulo (.number x) (.number y) = .ok v) ∧
    (∀ (f : ℕ) (q : ℚ) (env : Env) (st : Store),
      evalExpr (f + 2) (.binaryOp (.number (.rat q)) .mod (.number (.rat 0))) env st
        = .ok (.number .nan) env st) := by
  constructor
  · intro x y
    exact ⟨.number (x.modN y), rfl⟩
  · intro f q env st
    simp [evalExpr_succ, exprEval, evalAt_expr, modulo, FNum.modN, liftExcept]

/-- Claim C3, counterexample.  `Env::child` wraps a *clone* of the caller
in a fresh cell (`Rc::new(RefCell::new(self.clone()))`), so the child
reads the snapshot taken at creation: a child created from the fresh root
environment does not see `x` even after the caller subsequently binds it
(the caller's later `set_var` acts on the caller, leaving the child's
snapshot parent unchanged -- first conjunct), while a binding made before
child creation is visible through the chain (second conjunct). -/
theorem forge_C3_counterexample :
    (Env.new.child).get_var "x" = none ∧
    ((Env.new.set_var "x" (.number (.rat 1))).child).get_var "x"
      = some (.number (.rat 1)) := by
  constructor <;> with_unfolding_all rfl

/-- Claim C3, amended: a child's parent is a snapshot of the caller taken
at child creation; reads in the child walk that snapshot chain (the
child's own variable map starts empty), so exactly the caller bindings
made before creation are visible -- assignments the caller makes after
creating the child are not. -/
theorem forge_C3 : ∀ (e : Env) (n : String), e.child.get_var n = e.get_var n := by
  intro e n
  exact Env.child_get_var e n

/-- Claim C6: string subscripting is checked against the *byte* length
but indexes by *character* (`s.chars().nth(i).unwrap()`), so on the
two-byte, one-character string "é" the guard `1 < 2` passes and the
`unwrap` panics -- the evaluation crashes rather than returning a value
or an error, contradicting the specification's "must not panic". -/
theorem forge_C6 :
    evalExpr 2 (.index (.string "é") (.number (.rat 1))) Env.new Store.empty
      = .crash ∧
    "é".utf8ByteSize = 2 ∧ "é".data.length = 1 := by
  refine ⟨?_, rfl, rfl⟩
  with_unfolding_all rfl

/-- Claim C9, counterexample.  The claim says a negative slice bound is a
bounds error; instead `slice(arr, -1, 1)` on a one-element array succeeds
(the `as usize` cast saturates the negative bound to 0 before any test
runs) and returns a fresh one-element array. -/
theorem forge_C9_counterexample :
    slice_fn [.array 0, .number (.rat (-1)), .number (.rat 1)] Env.new
      ⟨[[.number (.rat 1)]], []⟩
      = .ok (.array 1) Env.new ⟨[[.number (.rat 1)], [.number (.rat 1)]], []⟩ := by
  with_unfolding_all rfl

/-- Claim C9, amended: a negative Number bound is not an error in itself;
the `f64`-to-`usize` cast clamps it to 0, so slice with a negative start
behaves exactly as slice with start 0 (and errors arise only from the
start/end and end/length comparisons on the clamped values). -/
theorem forge_C9 (a : ℕ) (q e : ℚ) (env : Env) (st : Store) (hq : q < 0) :
    FNum.toUsize (.rat q) = 0 ∧
    slice_fn [.array a, .number (.rat q), .number (.rat e)] env st
      = slice_fn [.array a, .number (.rat 0), .number (.rat e)] env st := by
  have h0 : FNum.toUsize (.rat q) = 0 := by simp [FNum.toUsize, hq.le]
  have h00 : FNum.toUsize (.rat 0) = 0 := by norm_num [FNum.toUsize]
  refine ⟨h0, ?_⟩
  simp [slice_fn, h0, h00]

/-- Witness for C9 at the concrete bound `-1`. -/
theorem forge_C9_witness :
    FNum.toUsize (.rat (-1)) = 0 ∧
    slice_fn [.array 0, .number (.rat (-1)), .number (.rat 1)] Env.new Store.empty
      = slice_fn [.array 0, .number (.rat 0), .number (.rat 1)] Env.new Store.empty :=
  forge_C9 0 (-1) 1 Env.new Store.empty (by norm_num)

/-- Claim C10: `push(a, v)` appends `v` to the shared cell of `a` and
returns the new length of the array as a Number (neither Null nor the
pushed value). -/
theorem forge_C10 (a : ℕ) (v : Value) (l : List Value) (env : Env) (st : Store)
    (h : st.arrays[a]? = some l) :
    push_fn [.array a, v] env st
      = .ok (.number (.rat ((l.length : ℚ) + 1))) env (st.setArr a (l ++ [v])) := by
  simp [push_fn, Store.arrAt, h]

/-- Witness for C10: pushing onto a one-element array yields length 2 and
the extended cell. -/
theorem forge_C10_witness :
    push_fn [.array 0, .null] Env.new ⟨[[.boolean true]], []⟩
      = .ok (.number (.rat ((List.length [Value.boolean true] : ℚ) + 1))) Env.new
          (Store.setArr ⟨[[.boolean true]], []⟩ 0 ([.boolean true] ++ [.null])) :=
  forge_C10 0 .null [.boolean true] Env.new ⟨[[.boolean true]], []⟩ rfl

end Forge

namespace Forge

/-- Claim C1: if the try body of a try/catch errors, the environment
current at try entry (the snapshot `env.clone()`) is what the catch body
runs in -- while the store keeps the mutations made before the error --
so every variable (in particular every Number-valued one) reads its
pre-try value after the catch.  The second conjunct runs the
specification's own scenario `x = 1; try: x = 2; 1/0; catch: pass` and
reads back `x = 1`. -/
theorem forge_C1 :
    (∀ (f : ℕ) (tb cb : List Stmt) (env : Env) (st : Store) (m : String)
      (e2 : Env) (s2 : Store),
      evalBlock f tb env st = .err m e2 s2 →
      evalStmt (f + 1) (.tryCatch tb cb) env st = evalBlock f cb env s2) ∧
    resultVar (runProgram 10 rollbackProg) "x" = some (.number (.rat 1)) := by
  constructor
  · intro f tb cb env st m e2 s2 h
    simp only [evalStmt_succ, stmtEval, evalAt_block, h]
  · with_unfolding_all rfl

/-- Witness for C1: a try body failing with division by zero hands the
catch body the entry environment. -/
theorem forge_C1_witness :
    evalStmt (4 + 1)
      (.tryCatch [.expr (.binaryOp (.number (.rat 1)) .div (.number (.rat 0)))] [])
      Env.new Store.empty
      = evalBlock 4 [] Env.new Store.empty :=
  forge_C1.1 4 [.expr (.binaryOp (.number (.rat 1)) .div (.number (.rat 0)))] []
    Env.new Store.empty "Division by zero" Env.new Store.empty
    (by with_unfolding_all rfl)

/-- Claim C5, counterexample.  Attribute lookup of a method on an
instance returns the method bound to the instance's *class*
(`Value::Method(m, Rc::clone(class))` in `value.rs`), not to the receiver
instance as the claim states. -/
theorem forge_C5_counterexample :
    pointInst.get_attr twoMapsStore "m" = some (.method mGet pointClass) ∧
    pointInst.get_attr twoMapsStore "m" ≠ some (.method mGet pointInst) := by
  constructor
  · with_unfolding_all rfl
  · intro h
    rw [show pointInst.get_attr twoMapsStore "m" = some (.method mGet pointClass) by
      with_unfolding_all rfl] at h
    simp [pointClass, pointInst] at h

/-- Claim C5, amended: attribute lookup on an Instance searches the
instance's field map, then the class's static fields, then the class's
methods, in that order; a method found this way is returned as a Method
bound to the *class* (the receiver itself is instead passed as the first
argument at method-call time); and with all three maps missing the
attribute the result is `none` whatever the parent class holds -- the
parent is never searched. -/
theorem forge_C5 (st : Store) (cname : String) (par : Option Value) (cf ia : ℕ)
    (ms : List (String × UserFunction)) (attr : String) (v : Value)
    (m : UserFunction) :
    (lookupA (st.mapAt ia) attr = some v →
      Value.get_attr (.inst (.cls cname par cf ms) ia) st attr = some v) ∧
    (lookupA (st.mapAt ia) attr = none → lookupA (st.mapAt cf) attr = some v →
      Value.get_attr (.inst (.cls cname par cf ms) ia) st attr = some v) ∧
    (lookupA (st.mapAt ia) attr = none → lookupA (st.mapAt cf) attr = none →
      lookupA ms attr = some m →
      Value.get_attr (.inst (.cls cname par cf ms) ia) st attr
        = some (.method m (.cls cname par cf ms))) ∧
    (lookupA (st.mapAt ia) attr = none → lookupA (st.mapAt cf) attr = none →
      lookupA ms attr = none →
      Value.get_attr (.inst (.cls cname par cf ms) ia) st attr = none) := by
  refine ⟨fun h1 => ?_, fun h1 h2 => ?_, fun h1 h2 h3 => ?_, fun h1 h2 h3 => ?_⟩ <;>
    simp [Value.get_attr, h1] <;> simp [h2] <;> simp [h3]

/-- Witness for C5: the method `m` of a class with empty field maps is
found in the method table and comes back bound to the class. -/
theorem forge_C5_witness :
    Value.get_attr (.inst (.cls "C" none 1 [("m", mGet)]) 0) twoMapsStore "m"
      = some (.method mGet (.cls "C" none 1 [("m", mGet)])) :=
  (forge_C5 twoMapsStore "C" none 1 0 [("m", mGet)] "m" .null mGet).2.2.1
    (by with_unfolding_all rfl) (by with_unfolding_all rfl)
    (by with_unfolding_all rfl)

/-- Claim C4: a bare call `f(args)` evaluates its arguments and then
resolves `f` as a class first (constructing an instance), then as a
builtin, then as a user function (run in a fresh child scope after an
arity check); a name bound in none of the three tables is an error. -/
theorem forge_C4 (f : ℕ) (name : String) (args : List Expr) (env e1 : Env)
    (st s1 : Store) (vals : List Value)
    (hargs : evalExprs (f + 1) args env st = .ok vals e1 s1) :
    (∀ c, e1.get_class name = some c →
      evalExpr (f + 1) (.call name args) env st = callAsClass f c vals e1 s1) ∧
    (e1.get_class name = none → e1.get_builtin name = true →
      evalExpr (f + 1) (.call name args) env st = callBuiltin name vals e1 s1) ∧
    (∀ fn, e1.get_class name = none → e1.get_builtin name = false →
      e1.get_func name = some fn →
      evalExpr (f + 1) (.call name args) env st =
        (if vals.length ≠ fn.params.length then
          .err ("Function \x27" ++ name ++ "\x27 expects " ++
            toString fn.params.length ++ " arguments, got " ++
            toString vals.length) e1 s1
        else
          match evalBlock f fn.body (bindParams fn.params vals e1.child) s1 with
          | .ok r _ s2 => .ok (r.getD .null) e1 s2
          | .err m _ s2 => .err m e1 s2
          | .crash => .crash
          | .nofuel => .nofuel)) ∧
    (e1.get_class name = none → e1.get_builtin name = false →
      e1.get_func name = none →
      evalExpr (f + 1) (.call name args) env st =
        .err ("Unknown function or class \x27" ++ name ++ "\x27") e1 s1) := by
  rw [evalExprs_succ] at hargs
  refine ⟨fun c hc => ?_, fun hc hb => ?_, fun fn hc hb hf => ?_, fun hc hb hf => ?_⟩
  · simp only [evalExpr_succ, exprEval, evalAt_expr, evalAt_block, evalAt_classCall,
      hargs, hc]
  · simp only [evalExpr_succ, exprEval, evalAt_expr, evalAt_block, evalAt_classCall,
      hargs, hc, hb]
    simp
  · simp only [evalExpr_succ, exprEval, evalAt_expr, evalAt_block, evalAt_classCall,
      hargs, hc, hb, hf]
    simp
  · simp only [evalExpr_succ, exprEval, evalAt_expr, evalAt_block, evalAt_classCall,
      hargs, hc, hb, hf]
    simp

/-- Witness for C4: a name bound nowhere errors. -/
theorem forge_C4_witness :
    evalExpr (0 + 1) (.call "absent" []) Env.new Store.empty
      = .err ("Unknown function or class \x27absent\x27") Env.new Store.empty :=
  (forge_C4 0 "absent" [] Env.new Env.new Store.empty Store.empty []
    (by with_unfolding_all rfl)).2.2.2 (by with_unfolding_all rfl)
    (by with_unfolding_all rfl) (by with_unfolding_all rfl)

end Forge

namespace Forge

/-- Symbolic evaluation of one iteration body of the snapshot-loop
scenario: `push(arr, x); c = c + 1` appends the loop value to cell 0 and
bumps the counter, whatever value the loop bound to `x` and whatever the
cell already holds. -/
theorem snapshotLoop_body (g : ℕ) (env : Env) (item : Value) (pre : List Value)
    (c0 : ℚ)
    (harr : env.get_var "arr" = some (.array 0))
    (hc : env.get_var "c" = some (.number (.rat c0)))
    (hcls : env.get_class "push" = none)
    (hblt : env.get_builtin "push" = true) :
    evalBlock (g + 4) snapshotLoopBody (env.set_var "x" item) ⟨[pre], []⟩
      = .ok none ((env.set_var "x" item).set_var "c" (.number (.rat (c0 + 1))))
          ⟨[pre ++ [item]], []⟩ := by
  have hxarr : (env.set_var "x" item).get_var "arr" = some (.array 0) := by
    rw [Env.get_var_set_var_ne env "x" "arr" item (by decide)]
    exact harr
  have hxx : (env.set_var "x" item).get_var "x" = some item :=
    Env.get_var_set_var_self env "x" item
  have hxc : (env.set_var "x" item).get_var "c" = some (.number (.rat c0)) := by
    rw [Env.get_var_set_var_ne env "x" "c" item (by decide)]
    exact hc
  have hxcls : (env.set_var "x" item).get_class "push" = none := by
    rw [Env.get_class_set_var]
    exact hcls
  have hxblt : (env.set_var "x" item).get_builtin "push" = true := by
    rw [Env.get_builtin_set_var]
    exact hblt
  simp only [snapshotLoopBody, evalBlock_succ, runBlock, evalStmt_succ, stmtEval,
    evalAt_expr, evalExpr_succ, exprEval, runArgs, hxarr, hxx, hxc, hxcls, hxblt,
    evalAt_block, evalAt_classCall, callBuiltin, push_fn, Store.arrAt, Store.setArr,
    add, FNum.addN, liftExcept]
  simp [hxc, hxx, hxarr, add, FNum.addN]

/-- The snapshot loop over any remaining item list: the iteration count
is the length of the snapshot, the pushes accumulate behind it, and the
counter advances by exactly one per snapshot element. -/
theorem snapshotLoop_go (g : ℕ) (items : List Value) :
    ∀ (c0 : ℚ) (pre : List Value) (env : Env),
    env.get_var "arr" = some (.array 0) →
    env.get_var "c" = some (.number (.rat c0)) →
    env.get_class "push" = none →
    env.get_builtin "push" = true →
    ∃ env2 : Env,
      runForIn (evalBlock (g + 4)) "x" items snapshotLoopBody env ⟨[pre], []⟩
        = .ok none env2 ⟨[pre ++ items], []⟩ ∧
      env2.get_var "c" = some (.number (.rat (c0 + items.length))) := by
  induction items with
  | nil =>
    intro c0 pre env harr hc hcls hblt
    refine ⟨env, ?_, ?_⟩
    · simp [runForIn]
    · simpa using hc
  | cons x tail ih =>
    intro c0 pre env harr hc hcls hblt
    have hbody := snapshotLoop_body g env x pre c0 harr hc hcls hblt
    have h1 : ((env.set_var "x" x).set_var "c" (.number (.rat (c0 + 1)))).get_var "arr"
        = some (.array 0) := by
      rw [Env.get_var_set_var_ne _ "c" "arr" _ (by decide),
        Env.get_var_set_var_ne _ "x" "arr" _ (by decide)]
      exact harr
    have h2 : ((env.set_var "x" x).set_var "c" (.number (.rat (c0 + 1)))).get_var "c"
        = some (.number (.rat (c0 + 1))) :=
      Env.get_var_set_var_self _ "c" _
    have h3 : ((env.set_var "x" x).set_var "c" (.number (.rat (c0 + 1)))).get_class "push"
        = none := by
      rw [Env.get_class_set_var, Env.get_class_set_var]
      exact hcls
    have h4 : ((env.set_var "x" x).set_var "c" (.number (.rat (c0 + 1)))).get_builtin "push"
        = true := by
      rw [Env.get_builtin_set_var, Env.get_builtin_set_var]
      exact hblt
    obtain ⟨env2, hrun, hc2⟩ := ih (c0 + 1) (pre ++ [x]) _ h1 h2 h3 h4
    refine ⟨env2, ?_, ?_⟩
    · simp only [runForIn, hbody, hrun, List.append_assoc, List.singleton_append]
    · rw [hc2]
      have : c0 + 1 + (tail.length : ℚ) = c0 + ((x :: tail).length : ℚ) := by
        push_cast [List.length_cons]
        ring
      rw [this]

/-- Claim C8: a for-in loop over an array snapshots the cell contents at
entry -- here the loop body pushes every visited element back onto the
very array being iterated, yet the loop still performs exactly one
iteration per element of the entry-time contents (the counter `c` ends at
the entry length), while the cell itself ends doubled. -/
theorem forge_C8 (vs : List Value) (g : ℕ) :
    ∃ env2 : Env,
      evalStmt (g + 5) (.forIn "x" (.var "arr") snapshotLoopBody) snapshotLoopEnv
        ⟨[vs], []⟩ = .ok none env2 ⟨[vs ++ vs], []⟩ ∧
      env2.get_var "c" = some (.number (.rat (vs.length : ℚ))) := by
  have harr : snapshotLoopEnv.get_var "arr" = some (.array 0) := by
    with_unfolding_all rfl
  have hc : snapshotLoopEnv.get_var "c" = some (.number (.rat 0)) := by
    with_unfolding_all rfl
  have hcls : snapshotLoopEnv.get_class "push" = none := by
    with_unfolding_all rfl
  have hblt : snapshotLoopEnv.get_builtin "push" = true := by
    with_unfolding_all rfl
  obtain ⟨env2, hrun, hc2⟩ := snapshotLoop_go g vs 0 vs snapshotLoopEnv harr hc hcls hblt
  refine ⟨env2, ?_, ?_⟩
  · simp only [evalStmt_succ, stmtEval, evalAt_expr, evalExpr_succ, exprEval, harr,
      evalAt_block, Store.arrAt]
    simpa using hrun
  · simpa using hc2

end Forge

namespace Forge

/-! ## Decimal display and parse lemmas (for claim C7) -/

theorem digitVal_digitChar (d : ℕ) (h : d < 10) :
    digitVal (Char.ofNat (d + 48)) = d := by
  interval_cases d <;> rfl

theorem isDigit_digitChar (d : ℕ) (h : d < 10) :
    (Char.ofNat (d + 48)).isDigit = true := by
  interval_cases d <;> rfl

theorem natDigits_isDigit (n : ℕ) : ∀ c ∈ natDigits n, c.isDigit = true := by
  intro c hcmem
  simp only [natDigits, List.mem_map, List.mem_reverse] at hcmem
  obtain ⟨d, hd, rfl⟩ := hcmem
  exact isDigit_digitChar d (Nat.digits_lt_base (by norm_num) hd)

theorem foldl_digitVal (l : List ℕ) (h : ∀ d ∈ l, d < 10) : ∀ a : ℕ,
    List.foldl (fun acc c => acc * 10 + digitVal c) a
        (l.map (fun d => Char.ofNat (d + 48)))
      = List.foldl (fun acc d => acc * 10 + d) a l := by
  induction l with
  | nil => intro a; rfl
  | cons d rest ih =>
    intro a
    simp only [List.map_cons, List.foldl_cons]
    rw [digitVal_digitChar d (h d (by simp))]
    exact ih (fun x hx => h x (by simp [hx])) (a * 10 + d)

theorem foldr_eq_ofDigits (l : List ℕ) :
    List.foldr (fun d acc => acc * 10 + d) 0 l = Nat.ofDigits 10 l := by
  induction l with
  | nil => simp [Nat.ofDigits]
  | cons d rest ih =>
    simp only [List.foldr_cons, Nat.ofDigits_cons, ih]
    ring

theorem digitsToNat_natDigits (n : ℕ) : digitsToNat (natDigits n) = n := by
  unfold digitsToNat natDigits
  rw [foldl_digitVal _ (fun d hd => Nat.digits_lt_base (by norm_num)
    (List.mem_reverse.mp hd)) 0]
  rw [List.foldl_reverse]
  rw [show (fun (x : ℕ) (y : ℕ) => y * 10 + x) = (fun d acc => acc * 10 + d) from rfl]
  rw [foldr_eq_ofDigits]
  exact Nat.ofDigits_digits 10 n

theorem span_isDigit_all (l : List Char) (h : ∀ c ∈ l, c.isDigit = true) :
    l.span (fun c => c.isDigit) = (l, []) := by
  rw [List.span_eq_take_drop]
  rw [List.takeWhile_eq_self_iff.mpr h, List.dropWhile_eq_nil_iff.mpr h]

theorem splitSign_digits (l : List Char) (h : ∀ c ∈ l, c.isDigit = true) :
    splitSign l = (false, l) := by
  match l with
  | [] => rfl
  | c :: rest =>
    have hc := h c (by simp)
    have h1 : c ≠ '-' := by rintro rfl; exact absurd hc (by decide)
    have h2 : c ≠ '+' := by rintro rfl; exact absurd hc (by decide)
    simp [splitSign, h1, h2]

theorem natDigits_ne_nil (n : ℕ) (hn : n ≠ 0) : natDigits n ≠ [] := by
  simp only [natDigits, ne_eq, List.map_eq_nil_iff, List.reverse_eq_nil_iff]
  exact Nat.digits_ne_nil_iff_ne_zero.mpr hn

theorem parseF64_natDisplay (m : ℕ) : parseF64 (natDisplay m) = some (m : ℚ) := by
  by_cases hm : m = 0
  · subst hm
    with_unfolding_all rfl
  · have hdata : (natDisplay m).data = natDigits m := by
      simp [natDisplay, hm]
    unfold parseF64
    rw [hdata, splitSign_digits _ (natDigits_isDigit m)]
    simp only
    rw [span_isDigit_all _ (natDigits_isDigit m)]
    have hne : natDigits m ≠ [] := natDigits_ne_nil m hm
    simp [hne, digitsToNat_natDigits m, parseExpTail]

theorem parseF64_intDisplay (n : ℤ) : parseF64 (intDisplay n) = some (n : ℚ) := by
  rcases le_or_lt 0 n with hn | hn
  · have : intDisplay n = natDisplay n.natAbs := by
      simp [intDisplay, not_lt.mpr hn]
    rw [this, parseF64_natDisplay]
    congr 1
    rw [Int.cast_natAbs]
    exact_mod_cast abs_of_nonneg hn
  · have hd : intDisplay n = "-" ++ natDisplay n.natAbs := by
      simp [intDisplay, hn]
    rw [hd]
    by_cases h0 : n.natAbs = 0
    · omega
    have hdata : ("-" ++ natDisplay n.natAbs).data = '-' :: natDigits n.natAbs := by
      simp [String.data_append, natDisplay, h0]
    unfold parseF64
    rw [hdata]
    simp only [splitSign, reduceIte]
    rw [span_isDigit_all _ (natDigits_isDigit n.natAbs)]
    have hne : natDigits n.natAbs ≠ [] := natDigits_ne_nil _ h0
    simp only [hne, digitsToNat_natDigits]
    have habs : ((n.natAbs : ℚ)) = -(n : ℚ) := by
      rw [Int.cast_natAbs]
      exact_mod_cast abs_of_neg hn
    simp [parseExpTail, habs, hne]

theorem displayFNum_intCast (n : ℤ) : displayFNum (.rat (n : ℚ)) = intDisplay n := by
  simp [displayFNum, Rat.den_intCast, Rat.num_intCast]

theorem add_string_number (st : Store) (x : FNum) :
    add (.string "") (.number x) st = .ok (.string (displayFNum x), st) := by
  simp [add, dispV, dispAt_succ, dispStep]

end Forge

namespace Forge

/-- Claim C7: converting an integer-valued Number within the exactly
representable range to a string through string concatenation (its display
form) and reading it back with `tonumber` returns the same number; and
`tonumber` on a non-numeric string such as "abc" yields 0 (the parse
failure is swallowed into `Ok(0.0)`). -/
theorem forge_C7 (n : ℤ) (h : n.natAbs ≤ 2 ^ 53) :
    (∀ st : Store, add (.string "") (.number (.rat (n : ℚ))) st
      = .ok (.string (intDisplay n), st)) ∧
    (∀ (env : Env) (st : Store), tonumber_fn [.string (intDisplay n)] env st
      = .ok (.number (.rat (n : ℚ))) env st) ∧
    (∀ (env : Env) (st : Store), tonumber_fn [.string "abc"] env st
      = .ok (.number (.rat 0)) env st) := by
  refine ⟨fun st => ?_, fun env st => ?_, fun env st => ?_⟩
  · rw [add_string_number, displayFNum_intCast]
  · simp [tonumber_fn, parseF64_intDisplay]
  · have habc : parseF64 "abc" = none := by with_unfolding_all rfl
    simp [tonumber_fn, habc]

/-- Witness for C7 at `n = -17`: displaying gives "-17" and `tonumber`
reads it back; "abc" maps to 0. -/
theorem forge_C7_witness :
    add (.string "") (.number (.rat ((-17 : ℤ) : ℚ))) Store.empty
      = .ok (.string (intDisplay (-17)), Store.empty) ∧
    tonumber_fn [.string (intDisplay (-17))] Env.new Store.empty
      = .ok (.number (.rat ((-17 : ℤ) : ℚ))) Env.new Store.empty ∧
    tonumber_fn [.string "abc"] Env.new Store.empty
      = .ok (.number (.rat 0)) Env.new Store.empty :=
  ⟨(forge_C7 (-17) (by norm_num)).1 Store.empty,
   (forge_C7 (-17) (by norm_num)).2.1 Env.new Store.empty,
   (forge_C7 (-17) (by norm_num)).2.2 Env.new Store.empty⟩

end Forge